import Mathlib

/-!
# whisper-api-server: lifecycle of the native engine state and result extraction

Shallow embedding of `internal/api/state.go` and of the route handler in `main.go`:

* `WhisperState` with its four native handles, the mutex and the `closed` flag;
* `InitializeWhisperState`, `WhisperState.ResetContext`, `WhisperState.Cleanup`;
* `getResult`;
* `transcriptionHandler`, the handler of `POST /v1/audio/transcriptions`.

Native handles are pointers; they are modelled as natural numbers, a nil pointer as `none`.
Every call into the whisper binding is recorded, in program order, in a list of `NativeCall`s.
What a native call returns is not decided by this package, so it is an argument of the
embedded function (one argument per call site).

The embedding is sequential. `sync.Mutex.Lock` on a mutex that is already locked never
returns in a sequential execution, so the two locking methods return `none` in that case.
-/

namespace WhisperApi

/-- A native pointer value. -/
abbrev Handle := Nat

/-- Go `error` values: either produced by the whisper binding, or built by `fmt.Errorf`
without (`errorf`) or with (`wrapf`) a trailing `%w` verb. -/
inductive GoError where
  | native (msg : String)
  | errorf (msg : String)
  | wrapf (msg : String) (cause : GoError)
deriving DecidableEq, Repr

/-- The method `Error()` of an error value. -/
def GoError.Error : GoError → String
  | .native msg => msg
  | .errorf msg => msg
  | .wrapf msg cause => msg ++ cause.Error

/-- The method `Unwrap()` of an error value: only `%w` errors have a cause. -/
def GoError.Unwrap : GoError → Option GoError
  | .native _ => none
  | .errorf _ => none
  | .wrapf _ cause => some cause

/-- Log level constants of the whisper binding that the package names. -/
inductive eLogLevel where
  | LlDebug
deriving DecidableEq, Repr

/-- Log flag constants of the whisper binding that the package names. -/
inductive eLogFlags where
  | LfUseStandardError
deriving DecidableEq, Repr

/-- Sampling strategy constants of the whisper binding. -/
inductive eSamplingStrategy where
  | SsGreedy
  | SsBeamSearch
deriving DecidableEq, Repr

/-- Result flag constants of the whisper binding that the package names. -/
inductive eResultFlags where
  | RfTokens
  | RfTimestamps
deriving DecidableEq, Repr

/-- One call into the whisper binding, with its receiver and arguments. -/
inductive NativeCall where
  | whisperNew (level : eLogLevel) (flags : eLogFlags)
  | loadModel (lib : Handle) (path : String)
  | createContext (model : Option Handle)
  | initMediaFoundation (lib : Handle)
  | fullDefaultParams (ctx : Handle) (strategy : eSamplingStrategy)
  | setLanguage (params : Handle) (lang : Int)
  | modelRelease (h : Handle)
  | contextRelease (h : Handle)
  | mediaRelease (h : Handle)
  | paramsRelease (h : Handle)
  | getResults (ctx : Handle) (flags : List eResultFlags)
  | getSize (view : Handle)
  | getSegments (view : Handle) (count : Nat)
  | resultRelease (view : Handle)
deriving DecidableEq, Repr

/-- The struct `WhisperState`. `mutex = true` means the mutex is locked. -/
structure WhisperState where
  model : Option Handle
  context : Option Handle
  media : Option Handle
  params : Option Handle
  mutex : Bool
  closed : Bool
deriving DecidableEq, Repr

/-- What the five acquisition calls of `InitializeWhisperState` return. -/
structure InitEnv where
  whisperNew : Except GoError Handle
  loadModel : Except GoError Handle
  createContext : Except GoError Handle
  initMediaFoundation : Except GoError Handle
  fullDefaultParams : Except GoError Handle

/-- The pair `(*WhisperState, error)` returned by `InitializeWhisperState`, with the native
calls made. -/
structure InitResult where
  state : Option WhisperState
  err : Option GoError
  calls : List NativeCall
deriving DecidableEq, Repr

/-- `InitializeWhisperState(modelPath, lang)`. -/
def InitializeWhisperState (env : InitEnv) (modelPath : String) (lang : Int) : InitResult :=
  let c1 : List NativeCall := [.whisperNew .LlDebug .LfUseStandardError]
  match env.whisperNew with
  | .error err =>
    ⟨none, some (.wrapf "failed to initialize whisper library: " err), c1⟩
  | .ok lib =>
    let c2 := c1 ++ [.loadModel lib modelPath]
    match env.loadModel with
    | .error err =>
      ⟨none, some (.wrapf "failed to load model: " err), c2⟩
    | .ok model =>
      let c3 := c2 ++ [.createContext (some model)]
      match env.createContext with
      | .error err =>
        ⟨none, some (.wrapf "failed to create context: " err), c3 ++ [.modelRelease model]⟩
      | .ok context =>
        let c4 := c3 ++ [.initMediaFoundation lib]
        match env.initMediaFoundation with
        | .error err =>
          ⟨none, some (.wrapf "failed to init media foundation: " err),
            c4 ++ [.contextRelease context, .modelRelease model]⟩
        | .ok media =>
          let c5 := c4 ++ [.fullDefaultParams context .SsBeamSearch]
          match env.fullDefaultParams with
          | .error err =>
            ⟨none, some (.wrapf "failed to get default params: " err),
              c5 ++ [.mediaRelease media, .contextRelease context, .modelRelease model]⟩
          | .ok params =>
            ⟨some { model := some model, context := some context, media := some media,
                    params := some params, mutex := false, closed := false },
              none, c5 ++ [.setLanguage params lang]⟩

/-- The `error` returned by a method of `WhisperState`, the state it leaves behind and the
native calls it made. -/
structure Outcome where
  state : WhisperState
  err : Option GoError
  calls : List NativeCall
deriving DecidableEq, Repr

/-- The deferred `ws.mutex.Unlock()`. -/
def Outcome.unlock (o : Outcome) : Outcome :=
  { o with state := { o.state with mutex := false } }

/-- `(*WhisperState).ResetContext()`; `create` is what `ws.model.CreateContext()` returns
if it is called. -/
def WhisperState.ResetContext (ws : WhisperState) (create : Except GoError Handle) :
    Option Outcome :=
  if ws.mutex then none
  else
    let ws := { ws with mutex := true }
    if ws.closed then
      some (Outcome.unlock ⟨ws, some (.errorf "whisper state is already closed"), []⟩)
    else
      let c1 : List NativeCall :=
        match ws.context with
        | some c => [.contextRelease c]
        | none => []
      let c2 := c1 ++ [.createContext ws.model]
      match create with
      | .error err =>
        some (Outcome.unlock ⟨ws, some (.wrapf "failed to create new context: " err), c2⟩)
      | .ok context =>
        some (Outcome.unlock ⟨{ ws with context := some context }, none, c2⟩)

/-- `(*WhisperState).Cleanup()`. -/
def WhisperState.Cleanup (ws : WhisperState) : Option Outcome :=
  if ws.mutex then none
  else
    let ws := { ws with mutex := true }
    if ws.closed then
      some (Outcome.unlock ⟨ws, none, []⟩)
    else
      let (ws, c1) : WhisperState × List NativeCall :=
        match ws.params with
        | some p => ({ ws with params := none }, [.paramsRelease p])
        | none => (ws, [])
      let (ws, c2) : WhisperState × List NativeCall :=
        match ws.media with
        | some m => ({ ws with media := none }, c1 ++ [.mediaRelease m])
        | none => (ws, c1)
      let (ws, c3) : WhisperState × List NativeCall :=
        match ws.context with
        | some c => ({ ws with context := none }, c2 ++ [.contextRelease c])
        | none => (ws, c2)
      let (ws, c4) : WhisperState × List NativeCall :=
        match ws.model with
        | some m => ({ ws with model := none }, c3 ++ [.modelRelease m])
        | none => (ws, c3)
      some (Outcome.unlock ⟨{ ws with closed := true }, none, c4⟩)

/-- A method call on a `WhisperState`, with what the native side answers during it. -/
inductive Op where
  | resetContext (create : Except GoError Handle)
  | cleanup

/-- One method call. -/
def step (ws : WhisperState) : Op → Option Outcome
  | .resetContext create => ws.ResetContext create
  | .cleanup => ws.Cleanup

/-- The state after a sequence of method calls, the errors they returned and all native
calls they made, in order. -/
structure RunResult where
  state : WhisperState
  errs : List (Option GoError)
  calls : List NativeCall
deriving DecidableEq, Repr

/-- A sequence of method calls, one after the other. -/
def run (ws : WhisperState) : List Op → Option RunResult
  | [] => some ⟨ws, [], []⟩
  | op :: ops =>
    match step ws op with
    | none => none
    | some o =>
      match run o.state ops with
      | none => none
      | some r => some ⟨r.state, o.err :: r.errs, o.calls ++ r.calls⟩

/-- A native segment of a transcription result; `Text()` reads its text. -/
structure sSegment where
  Text : String
deriving DecidableEq, Repr

/-- The native result object that `results` points to once `ctx.GetResults` has returned:
its pointer, what `GetSize()` returns (the field `CountSegments` on success) and the
native array of segments. -/
structure ITranscribeResult where
  handle : Handle
  GetSize : Except GoError Nat
  segment : Nat → sSegment

/-- Modelled from the spec: `GetSegments(n)` of the whisper binding, which is not part of
this package, yields the ordered sequence of the native segments `0 .. n-1`. -/
def ITranscribeResult.GetSegments (r : ITranscribeResult) (n : Nat) : List sSegment :=
  (List.range n).map r.segment

/-- The pair `(string, error)` returned by `getResult`, with the native calls made. -/
structure ResultOutcome where
  text : String
  err : Option GoError
  calls : List NativeCall
deriving DecidableEq, Repr

/-- `getResult(ctx)`; `getResults` is the error returned by `ctx.GetResults` (which the
function drops) together with the object `results` points to afterwards. -/
def getResult (ctx : Handle) (getResults : Option GoError × ITranscribeResult) :
    ResultOutcome :=
  let results := getResults.2
  let c1 : List NativeCall := [.getResults ctx [.RfTokens, .RfTimestamps]]
  let deferred : List NativeCall := [.resultRelease results.handle]
  let c2 := c1 ++ [.getSize results.handle]
  match results.GetSize with
  | .error err =>
    ⟨"", some (.wrapf "failed to get results size: " err), c2 ++ deferred⟩
  | .ok length =>
    let segments := results.GetSegments length
    let c3 := c2 ++ [.getSegments results.handle length]
    let result := segments.foldl (fun result seg => result ++ seg.Text) ""
    ⟨result, none, c3 ++ deferred⟩

/-- Native answers under which all five acquisition steps succeed. -/
def envOk : InitEnv :=
  ⟨.ok 1, .ok 2, .ok 3, .ok 4, .ok 5⟩

/-- The state `InitializeWhisperState` returns under `envOk`. -/
def wsOk : WhisperState :=
  ⟨some 2, some 3, some 4, some 5, false, false⟩

/-- The state every `Cleanup` of an open unlocked state leaves behind. -/
def wsClosed : WhisperState :=
  ⟨none, none, none, none, false, true⟩

/-- A native resource together with the kind of handle it is. -/
inductive Resource where
  | library (h : Handle)
  | model (h : Handle)
  | context (h : Handle)
  | media (h : Handle)
  | params (h : Handle)
deriving DecidableEq, Repr

/-- The five acquisition steps of `InitializeWhisperState` in program order (library,
model, context, media, params), each with what it returns. -/
def InitEnv.steps (env : InitEnv) : List (Except GoError Resource) :=
  [env.whisperNew.map .library, env.loadModel.map .model, env.createContext.map .context,
   env.initMediaFoundation.map .media, env.fullDefaultParams.map .params]

/-- The 1-based index of the acquisition step at which initialisation fails: the first
step that returns an error, a later step being reached only if all earlier ones succeed. -/
def InitEnv.failingStep (env : InitEnv) : Option Nat :=
  match env.whisperNew, env.loadModel, env.createContext, env.initMediaFoundation,
    env.fullDefaultParams with
  | .error _, _, _, _, _ => some 1
  | .ok _, .error _, _, _, _ => some 2
  | .ok _, .ok _, .error _, _, _ => some 3
  | .ok _, .ok _, .ok _, .error _, _ => some 4
  | .ok _, .ok _, .ok _, .ok _, .error _ => some 5
  | .ok _, .ok _, .ok _, .ok _, .ok _ => none

/-- The resources acquired in steps `1 .. k-1`, in acquisition order. -/
def InitEnv.acquiredBefore (env : InitEnv) (k : Nat) : List Resource :=
  (env.steps.take (k - 1)).filterMap fun r =>
    match r with
    | .ok res => some res
    | .error _ => none

/-- The resource a native call releases, if it is a `Release` call. -/
def NativeCall.released : NativeCall → Option Resource
  | .modelRelease h => some (.model h)
  | .contextRelease h => some (.context h)
  | .mediaRelease h => some (.media h)
  | .paramsRelease h => some (.params h)
  | _ => none

/-- The resources released by a sequence of native calls, in the order of release. -/
def releasedResources (calls : List NativeCall) : List Resource :=
  calls.filterMap NativeCall.released

/-- Whether a resource is the library handle. -/
def Resource.isLibrary : Resource → Bool
  | .library _ => true
  | _ => false

/-- Native answers under which the library is created and `LoadModel` fails. -/
def envFailLoad : InitEnv :=
  ⟨.ok 1, .error (.native "E_FAIL"), .ok 3, .ok 4, .ok 5⟩

/-- Native answers under which `InitMediaFoundation` is the first call to fail. -/
def envFailMedia : InitEnv :=
  ⟨.ok 1, .ok 2, .ok 3, .error (.native "E_FAIL"), .ok 5⟩

/-- Whether a native call is the `Release` of a result object. -/
def NativeCall.isResultRelease : NativeCall → Bool
  | .resultRelease _ => true
  | _ => false

/-- A result object whose segments are "Hello ", "world" and ".". -/
def helloResult : ITranscribeResult :=
  ⟨7, .ok 3, fun i =>
    match i with
    | 0 => ⟨"Hello "⟩
    | 1 => ⟨"world"⟩
    | _ => ⟨"."⟩⟩

/-- A result object whose size query fails. -/
def failedResult : ITranscribeResult :=
  ⟨7, .error (.native "E_FAIL"), fun _ => ⟨""⟩⟩

/-- The first acquisition step of `InitializeWhisperState` that fails (1-based), with the
error that step returns. -/
def InitEnv.failure (env : InitEnv) : Option (Nat × GoError) :=
  match env.whisperNew, env.loadModel, env.createContext, env.initMediaFoundation,
    env.fullDefaultParams with
  | .error e, _, _, _, _ => some (1, e)
  | .ok _, .error e, _, _, _ => some (2, e)
  | .ok _, .ok _, .error e, _, _ => some (3, e)
  | .ok _, .ok _, .ok _, .error e, _ => some (4, e)
  | .ok _, .ok _, .ok _, .ok _, .error e => some (5, e)
  | .ok _, .ok _, .ok _, .ok _, .ok _ => none

/-- The text that precedes `%w` in the error `InitializeWhisperState` returns when
acquisition step `k` fails. -/
def stepFormat : Nat → String
  | 1 => "failed to initialize whisper library: "
  | 2 => "failed to load model: "
  | 3 => "failed to create context: "
  | 4 => "failed to init media foundation: "
  | _ => "failed to get default params: "

/-- The constant `http.StatusInternalServerError`. -/
def StatusInternalServerError : Nat := 500

/-- What the transcription route handler of `main` does, in program order: the call of
`ResetContext`, the log line, the JSON response, the call of `api.Transcribe` with the
state it is given. -/
inductive HandlerEvent where
  | resetContext
  | logErrorf (msg : String)
  | json (status : Nat) (body : List (String × String))
  | transcribe (ws : WhisperState)
deriving DecidableEq, Repr

/-- Whether a handler event is a call of `api.Transcribe`. -/
def HandlerEvent.isTranscribe : HandlerEvent → Bool
  | .transcribe _ => true
  | _ => false

/-- What the route handler answers: the JSON response it writes itself, or whatever
`api.Transcribe` returns. -/
inductive Response (τ : Type) where
  | json (status : Nat) (body : List (String × String))
  | transcribed (result : τ)

/-- The answer of the route handler, what it did, the native calls made by `ResetContext`
and the state `ResetContext` left. -/
structure HandlerOutcome (τ : Type) where
  response : Response τ
  events : List HandlerEvent
  calls : List NativeCall
  state : WhisperState

/-- The handler registered for `POST /v1/audio/transcriptions` in `main`. `api.Transcribe`
is not part of the files at hand and is an argument: `Transcribe ws` is what it returns
for the request when called with the state `ws`. -/
def transcriptionHandler {τ : Type} (ws : WhisperState) (create : Except GoError Handle)
    (Transcribe : WhisperState → τ) : Option (HandlerOutcome τ) :=
  match ws.ResetContext create with
  | none => none
  | some o =>
    match o.err with
    | some err =>
      some ⟨.json StatusInternalServerError
          [("error", "Failed to reset transcription context")],
        [.resetContext, .logErrorf ("Failed to reset context: " ++ err.Error),
         .json StatusInternalServerError [("error", "Failed to reset transcription context")]],
        o.calls, o.state⟩
    | none =>
      some ⟨.transcribed (Transcribe o.state), [.resetContext, .transcribe o.state],
        o.calls, o.state⟩

/-! ## Auxiliary facts -/

/-- The invariant tying `closed` to the handle fields. -/
def ClosedInv (ws : WhisperState) : Prop :=
  ws.closed = true → ws.model = none ∧ ws.context = none ∧ ws.media = none ∧ ws.params = none

/-- A successful initialisation returns a fully populated, unlocked, open state. -/
theorem init_state_shape (env : InitEnv) (modelPath : String) (lang : Int) (ws : WhisperState)
    (h : (InitializeWhisperState env modelPath lang).state = some ws) :
    ∃ lib model context media params,
      env.whisperNew = .ok lib ∧ env.loadModel = .ok model ∧ env.createContext = .ok context ∧
      env.initMediaFoundation = .ok media ∧ env.fullDefaultParams = .ok params ∧
      ws = ⟨some model, some context, some media, some params, false, false⟩ := by
  unfold InitializeWhisperState at h
  rcases env with ⟨e1, e2, e3, e4, e5⟩
  rcases e1 with _ | lib <;> rcases e2 with _ | model <;> rcases e3 with _ | context <;>
    rcases e4 with _ | media <;> rcases e5 with _ | params <;> simp at h
  exact ⟨lib, model, context, media, params, rfl, rfl, rfl, rfl, rfl, h.symm⟩

/-- On an unlocked closed state `ResetContext` fails without touching anything. -/
theorem resetContext_closed (ws : WhisperState) (create : Except GoError Handle)
    (hm : ws.mutex = false) (hc : ws.closed = true) :
    ws.ResetContext create =
      some ⟨ws, some (.errorf "whisper state is already closed"), []⟩ := by
  rcases ws with ⟨a, b, c, d, m, cl⟩
  simp only at hm hc
  subst hm hc
  simp [WhisperState.ResetContext, Outcome.unlock]

/-- On an unlocked closed state `Cleanup` returns nil without touching anything. -/
theorem cleanup_closed (ws : WhisperState) (hm : ws.mutex = false) (hc : ws.closed = true) :
    ws.Cleanup = some ⟨ws, none, []⟩ := by
  rcases ws with ⟨a, b, c, d, m, cl⟩
  simp only at hm hc
  subst hm hc
  simp [WhisperState.Cleanup, Outcome.unlock]

/-- On an unlocked open state `Cleanup` releases what is present, in the order params,
media, context, model, and leaves the closed empty state. -/
theorem cleanup_open (ws : WhisperState) (hm : ws.mutex = false) (hc : ws.closed = false) :
    ws.Cleanup = some ⟨⟨none, none, none, none, false, true⟩, none,
      (ws.params.map NativeCall.paramsRelease).toList ++
      (ws.media.map NativeCall.mediaRelease).toList ++
      (ws.context.map NativeCall.contextRelease).toList ++
      (ws.model.map NativeCall.modelRelease).toList⟩ := by
  rcases ws with ⟨a, b, c, d, m, cl⟩
  simp only at hm hc
  subst hm hc
  rcases a with _ | a <;> rcases b with _ | b <;> rcases c with _ | c <;>
    rcases d with _ | d <;> simp [WhisperState.Cleanup, Outcome.unlock]

/-- Every method call on an unlocked state returns, leaves the state unlocked, keeps
`closed` once it is set and preserves `ClosedInv`. -/
theorem step_unlocked (ws : WhisperState) (op : Op) (hm : ws.mutex = false) :
    ∃ o, step ws op = some o ∧ o.state.mutex = false ∧
      (ws.closed = true → o.state.closed = true) ∧ (ClosedInv ws → ClosedInv o.state) := by
  rcases ws with ⟨a, b, c, d, m, cl⟩
  simp only at hm
  subst hm
  cases cl
  · cases op with
    | resetContext create =>
      rcases create with e | h <;>
        simp [step, WhisperState.ResetContext, Outcome.unlock, ClosedInv]
    | cleanup =>
      refine ⟨_, cleanup_open _ rfl rfl, rfl, fun _ => rfl, fun _ _ => ⟨rfl, rfl, rfl, rfl⟩⟩
  · cases op with
    | resetContext create =>
      exact ⟨_, resetContext_closed _ create rfl rfl, rfl, fun h => h, fun h => h⟩
    | cleanup =>
      exact ⟨_, cleanup_closed _ rfl rfl, rfl, fun h => h, fun h => h⟩

/-- On an unlocked closed state every method call makes no native call and changes
nothing. -/
theorem step_closed (ws : WhisperState) (op : Op) (hm : ws.mutex = false)
    (hc : ws.closed = true) : ∃ e, step ws op = some ⟨ws, e, []⟩ := by
  cases op with
  | resetContext create => exact ⟨_, resetContext_closed ws create hm hc⟩
  | cleanup => exact ⟨_, cleanup_closed ws hm hc⟩

/-- On an unlocked closed state every sequence of method calls returns, makes no native
call and changes nothing. -/
theorem run_closed (ws : WhisperState) (ops : List Op) (hm : ws.mutex = false)
    (hc : ws.closed = true) : ∃ es, run ws ops = some ⟨ws, es, []⟩ := by
  induction ops with
  | nil => exact ⟨[], rfl⟩
  | cons op ops ih =>
    obtain ⟨e, he⟩ := step_closed ws op hm hc
    obtain ⟨es, hes⟩ := ih
    exact ⟨e :: es, by simp [run, he, hes]⟩

/-- Repeated `Cleanup` on an unlocked closed state. -/
theorem run_cleanup_closed (ws : WhisperState) (k : Nat) (hm : ws.mutex = false)
    (hc : ws.closed = true) :
    run ws (List.replicate k Op.cleanup) = some ⟨ws, List.replicate k none, []⟩ := by
  induction k with
  | zero => rfl
  | succ k ih => simp [List.replicate_succ, run, step, cleanup_closed ws hm hc, ih]

/-- Every sequence of method calls on an unlocked state returns, leaves the state
unlocked and preserves `ClosedInv`. -/
theorem run_unlocked (ops : List Op) (ws : WhisperState) (hm : ws.mutex = false) :
    ∃ r, run ws ops = some r ∧ r.state.mutex = false ∧
      (ws.closed = true → r.state.closed = true) ∧ (ClosedInv ws → ClosedInv r.state) := by
  induction ops generalizing ws with
  | nil => exact ⟨_, rfl, hm, fun h => h, fun h => h⟩
  | cons op ops ih =>
    obtain ⟨o, ho, hom, hoc, hoi⟩ := step_unlocked ws op hm
    obtain ⟨r, hr, hrm, hrc, hri⟩ := ih o.state hom
    exact ⟨⟨r.state, o.err :: r.errs, o.calls ++ r.calls⟩, by simp [run, ho, hr], hrm,
      fun h => hrc (hoc h), fun h => hri (hoi h)⟩

/-! ## Cleanup is idempotent -/

/-- C1: on a state returned by a successful `InitializeWhisperState`, `N ≥ 1` consecutive
`Cleanup` calls all return nil; the first one performs the release sequence params, media,
context, model; in the state it leaves behind `Cleanup` makes no native call and changes no
field, so the whole sequence makes exactly those four native calls. -/
theorem cleanup_repeated (env : InitEnv) (modelPath : String) (lang : Int) (ws : WhisperState)
    (h : (InitializeWhisperState env modelPath lang).state = some ws) (N : Nat) (hN : 1 ≤ N) :
    ∃ p m c md s, ws.params = some p ∧ ws.media = some m ∧ ws.context = some c ∧
      ws.model = some md ∧
      ws.Cleanup = some ⟨s, none,
        [.paramsRelease p, .mediaRelease m, .contextRelease c, .modelRelease md]⟩ ∧
      s.Cleanup = some ⟨s, none, []⟩ ∧
      run ws (List.replicate N Op.cleanup) = some ⟨s, List.replicate N none,
        [.paramsRelease p, .mediaRelease m, .contextRelease c, .modelRelease md]⟩ := by
  obtain ⟨lib, model, context, media, params, -, -, -, -, -, rfl⟩ :=
    init_state_shape env modelPath lang ws h
  obtain ⟨k, rfl⟩ : ∃ k, N = k + 1 := ⟨N - 1, by omega⟩
  refine ⟨params, media, context, model, wsClosed, rfl, rfl, rfl, rfl, ?_, ?_, ?_⟩
  · exact cleanup_open _ rfl rfl
  · exact cleanup_closed _ rfl rfl
  · have h1 := cleanup_open ⟨some model, some context, some media, some params, false, false⟩
      rfl rfl
    have h2 := run_cleanup_closed wsClosed k rfl rfl
    simp only [Option.map_some', Option.toList_some, List.cons_append, List.nil_append] at h1
    simp only [List.replicate_succ, run, step, h1]
    rw [show (⟨none, none, none, none, false, true⟩ : WhisperState) = wsClosed from rfl, h2]
    simp

/-- Witness of `cleanup_repeated`: two `Cleanup` calls after a successful initialisation. -/
theorem cleanup_repeated_witness :
    (InitializeWhisperState envOk "model.bin" 1).state = some wsOk ∧ 1 ≤ 2 ∧
    ∃ p m c md s, wsOk.params = some p ∧ wsOk.media = some m ∧ wsOk.context = some c ∧
      wsOk.model = some md ∧
      wsOk.Cleanup = some ⟨s, none,
        [.paramsRelease p, .mediaRelease m, .contextRelease c, .modelRelease md]⟩ ∧
      s.Cleanup = some ⟨s, none, []⟩ ∧
      run wsOk (List.replicate 2 Op.cleanup) = some ⟨s, List.replicate 2 none,
        [.paramsRelease p, .mediaRelease m, .contextRelease c, .modelRelease md]⟩ :=
  ⟨rfl, by decide, cleanup_repeated envOk "model.bin" 1 wsOk rfl 2 (by decide)⟩

/-! ## Release of the context when `CreateContext` fails -/

/-- C2: after a successful initialisation, a `ResetContext` during which `CreateContext`
fails followed by `Cleanup` calls `Release` twice on the context handle `3`: the failing
`ResetContext` releases it and leaves it in the `context` field. -/
theorem context_released_twice :
    (InitializeWhisperState envOk "model.bin" 1).state = some wsOk ∧
    wsOk.ResetContext (.error (.native "E_FAIL")) =
      some ⟨wsOk, some (.wrapf "failed to create new context: " (.native "E_FAIL")),
        [.contextRelease 3, .createContext (some 2)]⟩ ∧
    run wsOk [.resetContext (.error (.native "E_FAIL")), .cleanup] =
      some ⟨wsClosed,
        [some (.wrapf "failed to create new context: " (.native "E_FAIL")), none],
        [.contextRelease 3, .createContext (some 2),
         .paramsRelease 5, .mediaRelease 4, .contextRelease 3, .modelRelease 2]⟩ ∧
    ([NativeCall.contextRelease 3, .createContext (some 2),
      .paramsRelease 5, .mediaRelease 4, .contextRelease 3, .modelRelease 2].count
        (.contextRelease 3)) = 2 :=
  ⟨rfl, rfl, rfl, by decide⟩

/-! ## A closed state rejects `ResetContext` -/

/-- C3: once `Cleanup` has returned on a state, then after any further sequence of
`ResetContext` and `Cleanup` calls (each of which returns), `ResetContext` returns the
closed-state error, makes no native call and leaves every field unchanged. -/
theorem resetContext_after_cleanup (ws : WhisperState) (o : Outcome)
    (h : ws.Cleanup = some o) (ops : List Op) :
    o.err = none ∧
    ∃ r, run o.state ops = some r ∧ r.state = o.state ∧ r.calls = [] ∧
      ∀ create, r.state.ResetContext create =
        some ⟨r.state, some (.errorf "whisper state is already closed"), []⟩ := by
  have hm : ws.mutex = false := by
    cases hmu : ws.mutex
    · rfl
    · simp [WhisperState.Cleanup, hmu] at h
  have key : o.err = none ∧ o.state.mutex = false ∧ o.state.closed = true := by
    cases hcl : ws.closed
    · rw [cleanup_open ws hm hcl] at h
      cases h
      exact ⟨rfl, rfl, rfl⟩
    · rw [cleanup_closed ws hm hcl] at h
      cases h
      exact ⟨rfl, hm, hcl⟩
  obtain ⟨he, hom, hoc⟩ := key
  obtain ⟨es, hes⟩ := run_closed o.state ops hom hoc
  exact ⟨he, _, hes, rfl, rfl, fun create => resetContext_closed o.state create hom hoc⟩

/-- Witness of `resetContext_after_cleanup`: `Cleanup`, then `Cleanup` and a `ResetContext`,
then the `ResetContext` in question. -/
theorem resetContext_after_cleanup_witness :
    wsOk.Cleanup = some ⟨wsClosed, none,
      [.paramsRelease 5, .mediaRelease 4, .contextRelease 3, .modelRelease 2]⟩ ∧
    ∃ r, run wsClosed [.cleanup, .resetContext (.ok 9)] = some r ∧ r.state = wsClosed ∧
      r.calls = [] ∧
      ∀ create, r.state.ResetContext create =
        some ⟨r.state, some (.errorf "whisper state is already closed"), []⟩ :=
  ⟨rfl, (resetContext_after_cleanup wsOk ⟨wsClosed, none,
      [.paramsRelease 5, .mediaRelease 4, .contextRelease 3, .modelRelease 2]⟩ rfl
      [.cleanup, .resetContext (.ok 9)]).2⟩

/-! ## Rollback in `InitializeWhisperState` -/

/-- C4 as stated fails: when `LoadModel` (step 2) fails, the library acquired in step 1 is
not released, so it is not true that for every failing step `k` the released resources are
those acquired in steps `1 .. k-1` in reverse order. -/
theorem init_rollback_omits_library :
    ¬ ∀ (env : InitEnv) (modelPath : String) (lang : Int) (k : Nat),
        env.failingStep = some k →
        releasedResources (InitializeWhisperState env modelPath lang).calls =
          (env.acquiredBefore k).reverse := by
  intro h
  have h2 := h envFailLoad "model.bin" 1 2 rfl
  revert h2
  decide

/-- C4, amended: if initialisation fails at step `k`, then `1 ≤ k ≤ 5`, no state and a
non-nil error are returned, and the `Release` calls made are exactly those of the model,
context and media handles acquired in steps `2 .. k-1`, one each, in reverse acquisition
order; the library handle of step 1 is not released. -/
theorem init_rollback (env : InitEnv) (modelPath : String) (lang : Int) (k : Nat)
    (hk : env.failingStep = some k) :
    1 ≤ k ∧ k ≤ 5 ∧
    (InitializeWhisperState env modelPath lang).state = none ∧
    (InitializeWhisperState env modelPath lang).err ≠ none ∧
    releasedResources (InitializeWhisperState env modelPath lang).calls =
      ((env.acquiredBefore k).filter fun r => !r.isLibrary).reverse ∧
    ((env.acquiredBefore k).filter fun r => !r.isLibrary).reverse.Nodup := by
  rcases env with ⟨e1, e2, e3, e4, e5⟩
  rcases e1 with _ | lib <;> rcases e2 with _ | model <;> rcases e3 with _ | context <;>
    rcases e4 with _ | media <;> rcases e5 with _ | params <;>
    simp [InitEnv.failingStep] at hk <;> subst hk <;>
    simp [InitializeWhisperState, InitEnv.acquiredBefore, InitEnv.steps, releasedResources,
      NativeCall.released, Resource.isLibrary, Except.map]

/-- Witness of `init_rollback`: `FullDefaultParams` (step 5) fails. -/
theorem init_rollback_witness :
    (⟨.ok 1, .ok 2, .ok 3, .ok 4, .error (.native "E_FAIL")⟩ : InitEnv).failingStep = some 5 ∧
    releasedResources (InitializeWhisperState
        ⟨.ok 1, .ok 2, .ok 3, .ok 4, .error (.native "E_FAIL")⟩ "model.bin" 1).calls =
      [.media 4, .context 3, .model 2] :=
  ⟨rfl, (init_rollback ⟨.ok 1, .ok 2, .ok 3, .ok 4, .error (.native "E_FAIL")⟩
    "model.bin" 1 5 rfl).2.2.2.2.1.trans (by decide)⟩

/-- C5: if `InitMediaFoundation` fails after the library, the model and the context have
been acquired, then the `Release` calls made are exactly `context.Release()` followed by
`model.Release()`, each made once, and the returned state is nil (with an error that wraps
the cause). -/
theorem init_media_failure (env : InitEnv) (modelPath : String) (lang : Int)
    (lib model context : Handle) (e : GoError)
    (h1 : env.whisperNew = .ok lib) (h2 : env.loadModel = .ok model)
    (h3 : env.createContext = .ok context) (h4 : env.initMediaFoundation = .error e) :
    (InitializeWhisperState env modelPath lang).state = none ∧
    (InitializeWhisperState env modelPath lang).err =
      some (.wrapf "failed to init media foundation: " e) ∧
    (InitializeWhisperState env modelPath lang).calls =
      [.whisperNew .LlDebug .LfUseStandardError, .loadModel lib modelPath,
       .createContext (some model), .initMediaFoundation lib,
       .contextRelease context, .modelRelease model] ∧
    (InitializeWhisperState env modelPath lang).calls.filter
        (fun c => c.released.isSome) = [.contextRelease context, .modelRelease model] ∧
    (InitializeWhisperState env modelPath lang).calls.count (.contextRelease context) = 1 ∧
    (InitializeWhisperState env modelPath lang).calls.count (.modelRelease model) = 1 := by
  simp [InitializeWhisperState, h1, h2, h3, h4, NativeCall.released, List.filter,
    List.count_cons]

/-- Witness of `init_media_failure`. -/
theorem init_media_failure_witness :
    envFailMedia.whisperNew = .ok 1 ∧ envFailMedia.loadModel = .ok 2 ∧
    envFailMedia.createContext = .ok 3 ∧
    envFailMedia.initMediaFoundation = .error (.native "E_FAIL") ∧
    (InitializeWhisperState envFailMedia "model.bin" 1).calls.filter
        (fun c => c.released.isSome) = [.contextRelease 3, .modelRelease 2] :=
  ⟨rfl, rfl, rfl, rfl,
    (init_media_failure envFailMedia "model.bin" 1 1 2 3 (.native "E_FAIL")
      rfl rfl rfl rfl).2.2.2.1⟩

/-! ## Order of release in `Cleanup` -/

/-- C6: on a non-closed state (whose mutex is free, so that the call returns), `Cleanup`
releases the handles that are present in the order params, media, context, model, returns
nil, and leaves all four handle fields nil and `closed = true`; for a state that
`InitializeWhisperState` returned this is the reverse of the order in which the four
handles were acquired. -/
theorem cleanup_release_order (ws : WhisperState) (hm : ws.mutex = false)
    (hc : ws.closed = false) :
    ∃ o, ws.Cleanup = some o ∧ o.err = none ∧
      o.calls = (ws.params.map NativeCall.paramsRelease).toList ++
        (ws.media.map NativeCall.mediaRelease).toList ++
        (ws.context.map NativeCall.contextRelease).toList ++
        (ws.model.map NativeCall.modelRelease).toList ∧
      o.state.model = none ∧ o.state.context = none ∧ o.state.media = none ∧
      o.state.params = none ∧ o.state.closed = true ∧
      ∀ (env : InitEnv) (modelPath : String) (lang : Int),
        (InitializeWhisperState env modelPath lang).state = some ws →
        releasedResources o.calls =
          ((env.acquiredBefore 6).filter fun r => !r.isLibrary).reverse := by
  refine ⟨_, cleanup_open ws hm hc, rfl, rfl, rfl, rfl, rfl, rfl, rfl, ?_⟩
  intro env modelPath lang h
  obtain ⟨lib, model, context, media, params, h1, h2, h3, h4, h5, rfl⟩ :=
    init_state_shape env modelPath lang ws h
  simp [InitEnv.acquiredBefore, InitEnv.steps, releasedResources, NativeCall.released,
    Resource.isLibrary, Except.map, h1, h2, h3, h4, h5]

/-- Witness of `cleanup_release_order`: a state without media handle. -/
theorem cleanup_release_order_witness :
    (⟨some 2, some 3, none, some 5, false, false⟩ : WhisperState).mutex = false ∧
    (⟨some 2, some 3, none, some 5, false, false⟩ : WhisperState).closed = false ∧
    (⟨some 2, some 3, none, some 5, false, false⟩ : WhisperState).Cleanup =
      some ⟨wsClosed, none, [.paramsRelease 5, .contextRelease 3, .modelRelease 2]⟩ := by
  obtain ⟨o, ho, -⟩ := cleanup_release_order ⟨some 2, some 3, none, some 5, false, false⟩
    rfl rfl
  exact ⟨rfl, rfl, rfl⟩

/-! ## The `closed` flag -/

/-- C7: every sequence of `ResetContext` and `Cleanup` calls on a state returned by a
successful `InitializeWhisperState` returns, and in the state it reaches `closed = true`
implies that model, context, media and params are all nil; moreover every further method
call returns and, if `closed` was true before it, `closed` is true after it. -/
theorem closed_invariant (env : InitEnv) (modelPath : String) (lang : Int)
    (ws : WhisperState) (h : (InitializeWhisperState env modelPath lang).state = some ws)
    (ops : List Op) :
    ∃ r, run ws ops = some r ∧
      (r.state.closed = true →
        r.state.model = none ∧ r.state.context = none ∧ r.state.media = none ∧
        r.state.params = none) ∧
      ∀ op, ∃ o, step r.state op = some o ∧
        (r.state.closed = true → o.state.closed = true) := by
  obtain ⟨lib, model, context, media, params, -, -, -, -, -, rfl⟩ :=
    init_state_shape env modelPath lang ws h
  obtain ⟨r, hr, hrm, -, hri⟩ :=
    run_unlocked ops ⟨some model, some context, some media, some params, false, false⟩ rfl
  refine ⟨r, hr, hri (fun hcl => by simp at hcl), fun op => ?_⟩
  obtain ⟨o, ho, -, hoc, -⟩ := step_unlocked r.state op hrm
  exact ⟨o, ho, hoc⟩

/-- Witness of `closed_invariant`: a failing `ResetContext`, `Cleanup` and a further
`ResetContext` after a successful initialisation. -/
theorem closed_invariant_witness :
    (InitializeWhisperState envOk "model.bin" 1).state = some wsOk ∧
    ∃ r, run wsOk [.resetContext (.error (.native "E_FAIL")), .cleanup,
        .resetContext (.ok 9)] = some r ∧
      (r.state.closed = true →
        r.state.model = none ∧ r.state.context = none ∧ r.state.media = none ∧
        r.state.params = none) ∧
      ∀ op, ∃ o, step r.state op = some o ∧
        (r.state.closed = true → o.state.closed = true) :=
  ⟨rfl, closed_invariant envOk "model.bin" 1 wsOk rfl
    [.resetContext (.error (.native "E_FAIL")), .cleanup, .resetContext (.ok 9)]⟩

/-! ## A successful `ResetContext` -/

/-- C8: if `ResetContext` returns nil on a non-closed state, then its native calls are the
release of the previous context (if there was one), made once, followed by one
`CreateContext` on the model, the `context` field holds the handle that `CreateContext`
returned, and model, media, params and `closed` are unchanged; if the handle returned by
`CreateContext` is none of the handles the state held, the new context differs from the
previous one (it differs exactly when the returned handle is not the previous context). -/
theorem resetContext_success (ws : WhisperState) (create : Except GoError Handle)
    (o : Outcome) (hc : ws.closed = false) (h : ws.ResetContext create = some o)
    (he : o.err = none) :
    ∃ hnew, create = .ok hnew ∧
      o.calls = (ws.context.map NativeCall.contextRelease).toList ++
        [.createContext ws.model] ∧
      o.calls.count (.createContext ws.model) = 1 ∧
      (∀ c, ws.context = some c → o.calls.count (.contextRelease c) = 1) ∧
      o.state.context = some hnew ∧
      ((some hnew ≠ ws.model ∧ some hnew ≠ ws.context ∧ some hnew ≠ ws.media ∧
          some hnew ≠ ws.params) → o.state.context ≠ ws.context) ∧
      (o.state.context ≠ ws.context ↔ some hnew ≠ ws.context) ∧
      o.state.model = ws.model ∧ o.state.media = ws.media ∧ o.state.params = ws.params ∧
      o.state.closed = ws.closed ∧ o.state.mutex = false := by
  rcases ws with ⟨a, b, c, d, m, cl⟩
  simp only at hc
  subst hc
  cases m
  · rcases create with e | hnew
    · simp [WhisperState.ResetContext, Outcome.unlock] at h
      subst h
      simp at he
    · simp [WhisperState.ResetContext, Outcome.unlock] at h
      subst h
      refine ⟨hnew, rfl, ?_⟩
      rcases b with _ | b
      · simp
      · refine ⟨by simp, by simp [List.count_cons], ?_, rfl, fun hf => hf.2.1, Iff.rfl,
          rfl, rfl, rfl, rfl, rfl⟩
        intro c0 hc0
        cases hc0
        simp [List.count_cons]
  · simp [WhisperState.ResetContext] at h

/-- Witness of `resetContext_success`: the first reset after a successful initialisation,
with a handle the state did not hold. -/
theorem resetContext_success_witness :
    wsOk.closed = false ∧
    wsOk.ResetContext (.ok 9) =
      some ⟨⟨some 2, some 9, some 4, some 5, false, false⟩, none,
        [.contextRelease 3, .createContext (some 2)]⟩ ∧
    ∃ hnew, (.ok 9 : Except GoError Handle) = .ok hnew ∧
      (some hnew : Option Handle) ≠ wsOk.context := by
  obtain ⟨hnew, h1, -, -, -, h5, -, h7, -⟩ := resetContext_success wsOk (.ok 9)
    ⟨⟨some 2, some 9, some 4, some 5, false, false⟩, none,
      [.contextRelease 3, .createContext (some 2)]⟩ rfl rfl rfl
  exact ⟨rfl, rfl, hnew, h1, h7.mp (by decide)⟩

/-! ## Result extraction -/

/-- The accumulation loop of `getResult`, started from any accumulator. -/
theorem foldl_text_join (l : List sSegment) (acc : String) :
    l.foldl (fun result seg => result ++ seg.Text) acc =
      acc ++ String.join (l.map fun seg => seg.Text) := by
  induction l generalizing acc with
  | nil => simp [String.join]
  | cons seg l ih =>
    have hj : String.join (seg.Text :: l.map fun seg => seg.Text) =
        seg.Text ++ String.join (l.map fun seg => seg.Text) := by
      have h1 := ih ("" ++ seg.Text)
      have h2 : ("" : String) ++ seg.Text = seg.Text := by simp
      rw [h2] at h1
      rw [← h1]
      simp [String.join, List.foldl_map]
    simp only [List.foldl_cons, List.map_cons]
    rw [ih, hj, String.append_assoc]

/-- The characters of a joined list of strings. -/
theorem join_data (l : List String) (acc : String) :
    (l.foldl (fun r s => r ++ s) acc).data = acc.data ++ (l.map String.data).flatten := by
  induction l generalizing acc with
  | nil => simp
  | cons s l ih => simp [ih, String.data_append, List.append_assoc]

/-- C9: when the size query succeeds with segment count `n`, `getResult` returns a nil
error and the concatenation of the texts of the segments `0 .. n-1` in that order; zero
segments give the empty string and the segments "Hello ", "world", "." give
"Hello world.". -/
theorem getResult_concat (ctx : Handle) (gr : Option GoError × ITranscribeResult) (n : Nat)
    (h : gr.2.GetSize = .ok n) :
    (getResult ctx gr).err = none ∧
    (getResult ctx gr).text = String.join ((List.range n).map fun i => (gr.2.segment i).Text) ∧
    (getResult ctx gr).text.data =
      ((List.range n).map fun i => (gr.2.segment i).Text.data).flatten ∧
    (n = 0 → (getResult ctx gr).text = "") ∧
    (n = 3 → (gr.2.segment 0).Text = "Hello " → (gr.2.segment 1).Text = "world" →
      (gr.2.segment 2).Text = "." → (getResult ctx gr).text = "Hello world.") := by
  have ht : (getResult ctx gr).text =
      String.join ((List.range n).map fun i => (gr.2.segment i).Text) := by
    simp only [getResult, h, ITranscribeResult.GetSegments]
    rw [foldl_text_join]
    simp [List.map_map, Function.comp_def]
  refine ⟨by simp [getResult, h], ht, ?_, ?_, ?_⟩
  · rw [ht, String.join, join_data]
    simp [List.map_map, Function.comp_def]
  · intro hn
    subst hn
    rw [ht]
    rfl
  · intro hn h0 h1 h2
    subst hn
    rw [ht]
    simp only [List.range, List.range.loop, List.map, h0, h1, h2]
    decide

/-- Witness of `getResult_concat`: the segments "Hello ", "world", ".". -/
theorem getResult_concat_witness :
    helloResult.GetSize = .ok 3 ∧
    (getResult 3 (none, helloResult)).err = none ∧
    (getResult 3 (none, helloResult)).text = "Hello world." :=
  ⟨rfl, (getResult_concat 3 (none, helloResult) 3 rfl).1,
    (getResult_concat 3 (none, helloResult) 3 rfl).2.2.2.2 rfl rfl rfl rfl⟩

/-- C10: whatever `ctx.GetResults` and the size query return, `getResult` releases the
result object exactly once, as its last native call; when the size query fails with `e`
it returns the empty string and an error that wraps `e`. -/
theorem getResult_releases_view (ctx : Handle) (gr : Option GoError × ITranscribeResult) :
    (getResult ctx gr).calls.count (.resultRelease gr.2.handle) = 1 ∧
    (getResult ctx gr).calls.filter NativeCall.isResultRelease =
      [.resultRelease gr.2.handle] ∧
    (getResult ctx gr).calls.getLast? = some (.resultRelease gr.2.handle) ∧
    ∀ e, gr.2.GetSize = .error e →
      (getResult ctx gr).text = "" ∧
      (getResult ctx gr).err = some (.wrapf "failed to get results size: " e) ∧
      (GoError.wrapf "failed to get results size: " e).Unwrap = some e ∧
      (GoError.wrapf "failed to get results size: " e).Error =
        "failed to get results size: " ++ e.Error := by
  rcases gr with ⟨ge, ⟨hd, sz, seg⟩⟩
  rcases sz with e | n
  · simp [getResult, List.count_cons, NativeCall.isResultRelease, List.filter,
      GoError.Unwrap, GoError.Error]
  · simp [getResult, List.count_cons, NativeCall.isResultRelease, List.filter]

/-- Witness of `getResult_releases_view`: the size query fails. -/
theorem getResult_releases_view_witness :
    failedResult.GetSize = .error (.native "E_FAIL") ∧
    (getResult 3 (none, failedResult)).calls.count (.resultRelease 7) = 1 ∧
    (getResult 3 (none, failedResult)).text = "" ∧
    (getResult 3 (none, failedResult)).err =
      some (.wrapf "failed to get results size: " (.native "E_FAIL")) :=
  ⟨rfl, (getResult_releases_view 3 (none, failedResult)).1,
    ((getResult_releases_view 3 (none, failedResult)).2.2.2 (.native "E_FAIL") rfl).1,
    ((getResult_releases_view 3 (none, failedResult)).2.2.2 (.native "E_FAIL") rfl).2.1⟩

/-! ## A successful initialisation -/

/-- C11: when all five acquisition steps succeed, `InitializeWhisperState` returns a nil
error and a state whose model, context, media and params fields hold the handles acquired,
with `closed = false` and the mutex unlocked; the params come from `FullDefaultParams` on
the acquired context with the beam-search strategy, `SetLanguage` is called once, on those
params with the given `lang`, and no `Release` call is made. -/
theorem init_success (env : InitEnv) (modelPath : String) (lang : Int)
    (lib model context media params : Handle)
    (h1 : env.whisperNew = .ok lib) (h2 : env.loadModel = .ok model)
    (h3 : env.createContext = .ok context) (h4 : env.initMediaFoundation = .ok media)
    (h5 : env.fullDefaultParams = .ok params) :
    (InitializeWhisperState env modelPath lang).err = none ∧
    (InitializeWhisperState env modelPath lang).state =
      some ⟨some model, some context, some media, some params, false, false⟩ ∧
    (InitializeWhisperState env modelPath lang).calls =
      [.whisperNew .LlDebug .LfUseStandardError, .loadModel lib modelPath,
       .createContext (some model), .initMediaFoundation lib,
       .fullDefaultParams context .SsBeamSearch, .setLanguage params lang] ∧
    (InitializeWhisperState env modelPath lang).calls.count (.setLanguage params lang) = 1 ∧
    (∀ p l, NativeCall.setLanguage p l ∈ (InitializeWhisperState env modelPath lang).calls →
      p = params ∧ l = lang) ∧
    releasedResources (InitializeWhisperState env modelPath lang).calls = [] := by
  simp [InitializeWhisperState, h1, h2, h3, h4, h5, releasedResources, NativeCall.released,
    List.count_cons]

/-- Witness of `init_success`. -/
theorem init_success_witness :
    envOk.whisperNew = .ok 1 ∧ envOk.loadModel = .ok 2 ∧ envOk.createContext = .ok 3 ∧
    envOk.initMediaFoundation = .ok 4 ∧ envOk.fullDefaultParams = .ok 5 ∧
    (InitializeWhisperState envOk "model.bin" 1).state = some wsOk :=
  ⟨rfl, rfl, rfl, rfl, rfl, (init_success envOk "model.bin" 1 1 2 3 4 5 rfl rfl rfl rfl rfl).2.1⟩

/-! ## The error of a failed initialisation -/

/-- C12: if acquisition step `k` is the one that fails, with cause `e`, then
`InitializeWhisperState` returns a nil state and the error built by `fmt.Errorf` from the
text naming step `k` and `%w` applied to `e`: its `Unwrap` is `e` and its message is that
text followed by the message of `e`. -/
theorem init_error_wraps (env : InitEnv) (modelPath : String) (lang : Int) (k : Nat)
    (e : GoError) (h : env.failure = some (k, e)) :
    env.failingStep = some k ∧
    (InitializeWhisperState env modelPath lang).state = none ∧
    ∃ err, (InitializeWhisperState env modelPath lang).err = some err ∧
      err.Unwrap = some e ∧ err.Error = stepFormat k ++ e.Error ∧
      (k = 1 → err.Error = "failed to initialize whisper library: " ++ e.Error) ∧
      (k = 2 → err.Error = "failed to load model: " ++ e.Error) ∧
      (k = 3 → err.Error = "failed to create context: " ++ e.Error) ∧
      (k = 4 → err.Error = "failed to init media foundation: " ++ e.Error) ∧
      (k = 5 → err.Error = "failed to get default params: " ++ e.Error) := by
  rcases env with ⟨e1, e2, e3, e4, e5⟩
  rcases e1 with _ | lib <;> rcases e2 with _ | model <;> rcases e3 with _ | context <;>
    rcases e4 with _ | media <;> rcases e5 with _ | params <;>
    simp [InitEnv.failure] at h <;> obtain ⟨rfl, rfl⟩ := h <;>
    simp [InitializeWhisperState, InitEnv.failingStep, GoError.Unwrap, GoError.Error,
      stepFormat]

/-- Witness of `init_error_wraps`: `LoadModel` fails. -/
theorem init_error_wraps_witness :
    envFailLoad.failure = some (2, .native "E_FAIL") ∧
    (InitializeWhisperState envFailLoad "model.bin" 1).state = none ∧
    ∃ err, (InitializeWhisperState envFailLoad "model.bin" 1).err = some err ∧
      err.Unwrap = some (.native "E_FAIL") ∧
      err.Error = "failed to load model: " ++ (GoError.native "E_FAIL").Error := by
  obtain ⟨-, hs, err, h1, h2, -, -, h4, -⟩ :=
    init_error_wraps envFailLoad "model.bin" 1 2 (.native "E_FAIL") rfl
  exact ⟨rfl, hs, err, h1, h2, h4 rfl⟩

/-! ## The transcription route handler -/

/-- C13: the route handler (on a state whose mutex is free, so that `ResetContext`
returns) calls `ResetContext` first and exactly once; if that returns an error the handler
answers with status 500 and the JSON object with the single key "error", and does not
call `api.Transcribe`; if it returns nil the handler calls `api.Transcribe` exactly once,
with the state `ResetContext` left, and returns what it returns. -/
theorem handler_reset_then_transcribe {τ : Type} (ws : WhisperState)
    (create : Except GoError Handle) (Transcribe : WhisperState → τ)
    (hm : ws.mutex = false) :
    ∃ o ho, ws.ResetContext create = some o ∧
      transcriptionHandler ws create Transcribe = some ho ∧
      ho.events.head? = some .resetContext ∧
      ho.events.count .resetContext = 1 ∧
      ho.calls = o.calls ∧
      (∀ err, o.err = some err →
        ho.response = .json 500 [("error", "Failed to reset transcription context")] ∧
        ho.events.getLast? =
          some (.json 500 [("error", "Failed to reset transcription context")]) ∧
        ho.events.filter HandlerEvent.isTranscribe = []) ∧
      (o.err = none →
        ho.response = .transcribed (Transcribe o.state) ∧
        ho.events.filter HandlerEvent.isTranscribe = [.transcribe o.state]) := by
  obtain ⟨o, ho, -⟩ := step_unlocked ws (.resetContext create) hm
  have hr : ws.ResetContext create = some o := ho
  rcases o with ⟨st, oe, oc⟩
  rcases oe with _ | err
  · exact ⟨_, ⟨.transcribed (Transcribe st), [.resetContext, .transcribe st], oc, st⟩, hr,
      by simp [transcriptionHandler, hr], rfl, by simp [List.count_cons], rfl,
      fun err h => by simp at h, fun _ => ⟨rfl, by simp [HandlerEvent.isTranscribe]⟩⟩
  · exact ⟨_, ⟨.json StatusInternalServerError
          [("error", "Failed to reset transcription context")],
        [.resetContext, .logErrorf ("Failed to reset context: " ++ err.Error),
         .json StatusInternalServerError [("error", "Failed to reset transcription context")]],
        oc, st⟩, hr,
      by simp [transcriptionHandler, hr], rfl,
      by simp [List.count_cons], rfl,
      fun _ _ => ⟨rfl, rfl, by simp [HandlerEvent.isTranscribe]⟩, fun h => by simp at h⟩

/-- Witness of `handler_reset_then_transcribe`: a request on a closed state, where
`ResetContext` fails. -/
theorem handler_reset_then_transcribe_witness :
    wsClosed.mutex = false ∧
    ∃ ho, transcriptionHandler wsClosed (.ok 9) (fun _ => "text") = some ho ∧
      ho.events.count .resetContext = 1 ∧
      ho.events.filter HandlerEvent.isTranscribe = [] := by
  obtain ⟨o, ho, h1, h2, -, h4, -, h6, -⟩ :=
    handler_reset_then_transcribe wsClosed (.ok 9) (fun _ => "text") rfl
  have ho1 : o.err = some (.errorf "whisper state is already closed") := by
    rw [resetContext_closed wsClosed (.ok 9) rfl rfl] at h1
    cases h1
    rfl
  exact ⟨rfl, ho, h2, h4, (h6 _ ho1).2.2⟩

/-! ## A failing `CreateContext` inside `ResetContext` -/

/-- C15: on a non-closed state (with a free mutex) whose context is `c`, if
`CreateContext` fails with `e` then `ResetContext` first releases `c`, then calls
`CreateContext`, returns an error wrapping `e`, and leaves the state as it was: the
context field still holds `c`, and model, media, params and `closed = false` are
unchanged. -/
theorem resetContext_create_failure (ws : WhisperState) (c : Handle) (e : GoError)
    (hm : ws.mutex = false) (hc : ws.closed = false) (hctx : ws.context = some c) :
    ∃ o, ws.ResetContext (.error e) = some o ∧
      o.err = some (.wrapf "failed to create new context: " e) ∧
      (GoError.wrapf "failed to create new context: " e).Unwrap = some e ∧
      o.calls = [.contextRelease c, .createContext ws.model] ∧
      o.state.context = some c ∧ o.state.model = ws.model ∧ o.state.media = ws.media ∧
      o.state.params = ws.params ∧ o.state.closed = false ∧ o.state = ws := by
  rcases ws with ⟨a, b, m, d, mu, cl⟩
  simp only at hm hc hctx
  subst hm hc hctx
  exact ⟨_, by simp [WhisperState.ResetContext, Outcome.unlock]; rfl, rfl, rfl, rfl, rfl, rfl,
    rfl, rfl, rfl, rfl⟩

/-- Witness of `resetContext_create_failure`: the state returned by a successful
initialisation. -/
theorem resetContext_create_failure_witness :
    wsOk.mutex = false ∧ wsOk.closed = false ∧ wsOk.context = some 3 ∧
    ∃ o, wsOk.ResetContext (.error (.native "E_FAIL")) = some o ∧
      o.err = some (.wrapf "failed to create new context: " (.native "E_FAIL")) ∧
      o.calls = [.contextRelease 3, .createContext (some 2)] ∧ o.state.context = some 3 := by
  obtain ⟨o, h1, h2, -, h4, h5, -⟩ :=
    resetContext_create_failure wsOk 3 (.native "E_FAIL") rfl rfl rfl
  exact ⟨rfl, rfl, rfl, o, h1, h2, h4, h5⟩

/-! ## When `getResult` returns an error -/

/-- C16: `getResult` returns a non-nil error exactly when the size query fails, and its
result does not depend on the error returned by `ctx.GetResults`: with the same result
object behind `results`, a failing and a succeeding `GetResults` give the same outcome. -/
theorem getResult_error_iff (ctx : Handle) (gr : Option GoError × ITranscribeResult) :
    ((getResult ctx gr).err ≠ none ↔ ∃ e, gr.2.GetSize = .error e) ∧
    (∀ ge : Option GoError, getResult ctx (ge, gr.2) = getResult ctx gr) ∧
    (∀ (ge : GoError) (n : Nat), gr.2.GetSize = .ok n →
      (getResult ctx (some ge, gr.2)).err = none) := by
  rcases gr with ⟨g, ⟨hd, sz, seg⟩⟩
  rcases sz with e | n <;> simp [getResult]

end WhisperApi
